import Mathlib

/-!
Verification development for the llama-stack inference-normalization core:
the Groq provider adapter (`llama_stack/providers/remote/inference/groq/groq.py`),
the RAG tool data model (`llama_stack/apis/tools/rag_tool.py`), and the
Streaming Tool-Call Parser described in the specification (its implementation,
`groq_utils.convert_chat_completion_response_stream`, only has its caller in
the sources, so it is modelled from the specification).

Machine integers are modelled as `Int`/`Nat`; Python exceptions as explicit
`Except` error results; Python strings as Lean `String` (character lists for
the stream parser, so that induction over the stream is direct).
-/

set_option linter.unusedVariables false

namespace LlamaStack

/-! ## Opaque payload carriers

These stand for data the adapter merely transports: the adapter logic never
inspects their contents, so a single-field carrier is a faithful embedding. -/

structure Message where
  content : String
deriving Repr, DecidableEq

structure SamplingParams where
  raw : String
deriving Repr, DecidableEq

structure ResponseFormat where
  raw : String
deriving Repr, DecidableEq

structure ToolDefinition where
  tool_name : String
deriving Repr, DecidableEq

structure ToolConfig where
  raw : String
deriving Repr, DecidableEq

/-- `ToolChoice` policy (auto/required/none/specific tool). The adapter never
reads it, so the carrier is opaque. -/
structure ToolChoice where
  raw : String
deriving Repr, DecidableEq

/-- `ToolPromptFormat` hint (json / python_list). The adapter never reads it. -/
structure ToolPromptFormat where
  raw : String
deriving Repr, DecidableEq

structure LogProbConfig where
  raw : String
deriving Repr, DecidableEq

/-- Opaque backend chat-completion response payload. -/
structure BackendResponse where
  raw : String
deriving Repr, DecidableEq

/-! ## Groq adapter data model (`groq.py`) -/

/-- `GroqConfig`: static provider configuration; `api_key` is optional. -/
structure GroqConfig where
  api_key : Option String
deriving Repr, DecidableEq

/-- Per-request provider data (`X-LlamaStack-Provider-Data` header contents).
`groq_api_key` is a Python string; the empty string is falsy in
`not provider_data.groq_api_key`. -/
structure GroqProviderData where
  groq_api_key : String
deriving Repr, DecidableEq

/-- The backend `Groq(api_key=...)` client handle. -/
structure Groq where
  api_key : String
deriving Repr, DecidableEq

/-- Diagnostic error object inside a Groq `BadRequestError` body
(`e.body["error"]`), with its optional `code` field. -/
structure GroqErrorInfo where
  code : Option String
  message : String
deriving Repr, DecidableEq

/-- Exceptions the backend call may raise.  `badRequest` carries
`e.body.get("error", {})` (absent key modelled as `none`); `other` is any
other backend exception, carried verbatim. -/
inductive GroqException where
  | badRequest (error : Option GroqErrorInfo)
  | other (name : String) (message : String)
deriving Repr, DecidableEq

/-- `e.body.get("error", {}).get("code")`: a missing `error` key yields `{}`,
whose `.get("code")` is `None`. -/
def bodyErrorCode : Option GroqErrorInfo → Option String
  | none => none
  | some info => info.code

/-- Errors the adapter itself surfaces to the caller. `toolInvocationFailed`
is the `ValueError("Groq failed to call a tool", e.body.get("error", {}))`
raised on a `tool_use_failed` bad request; `upstream` re-raises the original
backend exception unchanged; `notImplemented` is Python's
`NotImplementedError` (the `UnsupportedOperation` of the spec taxonomy);
`missingCredential` is the `ValueError` raised by `_get_client`. -/
inductive AdapterError where
  | toolInvocationFailed (payload : Option GroqErrorInfo)
  | upstream (e : GroqException)
  | notImplemented
  | missingCredential (message : String)
deriving Repr, DecidableEq

/-- The actionable credential message of `GroqInferenceAdapter._get_client`. -/
def missingGroqKeyMessage : String :=
  "Pass Groq API Key in the header X-LlamaStack-Provider-Data as \x7b \"groq_api_key\": \"<your api key>\" \x7d"

/-- `GroqInferenceAdapter._get_client`: prefer the static config key; else
consult the per-request provider data; raise `ValueError` when neither
supplies a (truthy) key. -/
def getClient (config : GroqConfig) (providerData : Option GroqProviderData) :
    Except AdapterError Groq :=
  match config.api_key with
  | some key => .ok ⟨key⟩
  | none =>
    match providerData with
    | none => .error (.missingCredential missingGroqKeyMessage)
    | some pd =>
      if pd.groq_api_key = "" then .error (.missingCredential missingGroqKeyMessage)
      else .ok ⟨pd.groq_api_key⟩

/-- The unified `ChatCompletionRequest` as constructed inside
`GroqInferenceAdapter.chat_completion` (groq.py lines 88–97): note that the
constructed request has no `tool_choice` and no `tool_prompt_format` field
set — only `tool_config` is forwarded. -/
structure ChatCompletionRequest where
  model : String
  messages : List Message
  sampling_params : SamplingParams
  response_format : Option ResponseFormat
  tools : Option (List ToolDefinition)
  stream : Bool
  logprobs : Option LogProbConfig
  tool_config : Option ToolConfig
deriving Repr, DecidableEq

/-- The adapter: its static config and its model registry resolution
(`get_provider_model_id`, logical id → provider-local id), abstract here. -/
structure GroqInferenceAdapter where
  config : GroqConfig
  get_provider_model_id : String → String

/-- The preview-model advisory of groq.py lines 80–85. -/
def groqPreviewWarning : String :=
  "Groq only contains a preview version for llama-3.2-3b-instruct. Preview models are not recommended for production use. They can be discontinued on short notice. More details: https://console.groq.com/docs/models"

/-- The `ChatCompletionRequest` built by `chat_completion` from its arguments
(after model-id resolution). -/
def buildChatRequest (model_id : String) (messages : List Message)
    (sampling_params : SamplingParams) (response_format : Option ResponseFormat)
    (tools : Option (List ToolDefinition)) (stream : Bool)
    (logprobs : Option LogProbConfig) (tool_config : Option ToolConfig) :
    ChatCompletionRequest :=
  { model := model_id
    messages := messages
    sampling_params := sampling_params
    response_format := response_format
    tools := tools
    stream := stream
    logprobs := logprobs
    tool_config := tool_config }

/-- `GroqInferenceAdapter.chat_completion`.  The backend transport
(`convert_chat_completion_request` composed with
`client.chat.completions.create` and the response conversion) is the opaque
parameter `create`; the result pairs the warnings emitted with the backend
response.  The `try/except groq.BadRequestError` of lines 100–107 translates
a `tool_use_failed` bad request into the distinct `toolInvocationFailed`
error carrying `e.body.get("error", {})`, and re-raises anything else. -/
def chat_completion (adapter : GroqInferenceAdapter)
    (providerData : Option GroqProviderData)
    (create : Groq → ChatCompletionRequest → Except GroqException BackendResponse)
    (model_id : String) (messages : List Message)
    (sampling_params : SamplingParams) (response_format : Option ResponseFormat)
    (tools : Option (List ToolDefinition)) (tool_choice : Option ToolChoice)
    (tool_prompt_format : Option ToolPromptFormat) (stream : Bool)
    (logprobs : Option LogProbConfig) (tool_config : Option ToolConfig) :
    Except AdapterError (List String × BackendResponse) :=
  let mid := adapter.get_provider_model_id model_id
  let warns : List String :=
    if mid = "llama-3.2-3b-preview" then [groqPreviewWarning] else []
  let request := buildChatRequest mid messages sampling_params response_format
    tools stream logprobs tool_config
  match getClient adapter.config providerData with
  | .error e => .error e
  | .ok client =>
    match create client request with
    | .error (.badRequest body) =>
      if bodyErrorCode body = some "tool_use_failed" then
        .error (.toolInvocationFailed body)
      else
        .error (.upstream (.badRequest body))
    | .error e => .error (.upstream e)
    | .ok resp => .ok (warns, resp)

/-- `GroqInferenceAdapter.completion`: unconditionally
`raise NotImplementedError()` (Groq has no non-chat completion). -/
def completion (adapter : GroqInferenceAdapter) (model_id : String)
    (content : String) (sampling_params : SamplingParams)
    (response_format : Option ResponseFormat) (stream : Bool)
    (logprobs : Option LogProbConfig) :
    Except AdapterError BackendResponse :=
  .error .notImplemented

/-- `GroqInferenceAdapter.embeddings`: unconditionally
`raise NotImplementedError()`. -/
def embeddings (adapter : GroqInferenceAdapter) (model_id : String)
    (contents : List String) (text_truncation : Option String)
    (output_dimension : Option Nat) (task_type : Option String) :
    Except AdapterError BackendResponse :=
  .error .notImplemented

/-! ## RAG tool data model (`rag_tool.py`) -/

/-- Opaque `InterleavedContent` carrier. -/
structure InterleavedContent where
  text : String
deriving Repr, DecidableEq

/-- `RAGQueryResult`: optional assembled content, absent by default
(`content: Optional[InterleavedContent] = None`). -/
structure RAGQueryResult where
  content : Option InterleavedContent := none
deriving Repr, DecidableEq

/-- A `RAGQueryResult` built with no argument: its `content` field takes its
declared default, `None`. -/
def defaultRAGQueryResult : RAGQueryResult := {}

/-- The `RAGQueryGenerator` enum (rag_tool.py lines 31–35): its members are
`default`, `llm` and `custom`.  Distinct from `RAGQueryGeneratorConfig`. -/
inductive RAGQueryGenerator where
  | default
  | llm
  | custom
deriving Repr, DecidableEq

/-- `RAGQueryGeneratorConfig` (rag_tool.py lines 51–60): the discriminated
union `Union[DefaultRAGQueryGeneratorConfig, LLMRAGQueryGeneratorConfig]`,
discriminated on the `type` tag.  `default` carries `separator: str = " "`;
`llm` carries `model: str` and `template: str`.  There is no `custom`
alternative in this union. -/
inductive RAGQueryGeneratorConfig where
  | defaultConfig (separator : String)
  | llmConfig (model : String) (template : String)
deriving Repr, DecidableEq

/-- The tag a `RAGQueryGeneratorConfig` value carries (its `type` field). -/
def RAGQueryGeneratorConfig.tag : RAGQueryGeneratorConfig → String
  | .defaultConfig _ => "default"
  | .llmConfig _ _ => "llm"

/-- Input fields offered to pydantic validation of a
`RAGQueryGeneratorConfig`: the discriminator tag and the possible payload
fields (absent fields are `none`). -/
structure QGCInput where
  type : String
  separator : Option String
  model : Option String
  template : Option String
deriving Repr, DecidableEq

/-- Pydantic validation of the `RAGQueryGeneratorConfig` discriminated union:
the discriminator selects `DefaultRAGQueryGeneratorConfig` for tag
`"default"` (with `separator` defaulting to `" "`) and
`LLMRAGQueryGeneratorConfig` for tag `"llm"` (whose `model` and `template`
are required); every other tag fails validation. -/
def validateQueryGeneratorConfig (input : QGCInput) :
    Option RAGQueryGeneratorConfig :=
  if input.type = "default" then
    some (.defaultConfig (input.separator.getD " "))
  else if input.type = "llm" then
    match input.model, input.template with
    | some m, some t => some (.llmConfig m t)
    | _, _ => none
  else
    none

/-- `RAGQueryConfig` (rag_tool.py lines 63–71): `query_generator_config`
defaults to `DefaultRAGQueryGeneratorConfig()`, `max_tokens_in_context: int
= 4096`, `max_chunks: int = 5`.  Both numeric fields are plain pydantic
`int` fields. -/
structure RAGQueryConfig where
  query_generator_config : RAGQueryGeneratorConfig := .defaultConfig " "
  max_tokens_in_context : Int := 4096
  max_chunks : Int := 5
deriving Repr, DecidableEq

/-- Configuration-time errors of the spec taxonomy. -/
inductive ConfigError where
  | invalidConfig (message : String)
deriving Repr, DecidableEq

/-- Pydantic construction (validation) of a `RAGQueryConfig`: the model
declares `max_tokens_in_context: int` and `max_chunks: int` with no value
constraint, so validation accepts every integer for both fields. -/
def validateRAGQueryConfig (qgc : RAGQueryGeneratorConfig)
    (max_tokens_in_context : Int) (max_chunks : Int) :
    Except ConfigError RAGQueryConfig :=
  .ok { query_generator_config := qgc
        max_tokens_in_context := max_tokens_in_context
        max_chunks := max_chunks }

/-! ## Retrieval Assembler (modelled from the spec)

The RAG query implementation (the memory tool runtime that consumes a ranked
chunk list under `max_chunks` / `max_tokens_in_context`) is not among the
sources; `rag_tool.py` only declares its interface.  It is modelled from the
spec §4.4. -/

/-- A scored retrieval chunk: its content and its estimated token length. -/
structure ScoredChunk where
  content : String
  tokens : Nat
deriving Repr, DecidableEq

/-- Modelled from the spec: the greedy chunk-selection loop of the Retrieval
Assembler (§4.4), whose implementation is not among the sources.  Iterate
chunks in relevance order; accept a chunk when accepting keeps the running
token total ≤ `max_tokens_in_context` and the accepted count < `max_chunks`;
otherwise skip it and continue. -/
def acceptChunks (maxTokens maxChunks : Int) :
    List ScoredChunk → Int → Int → List ScoredChunk
  | [], _, _ => []
  | c :: rest, total, count =>
    if total + (c.tokens : Int) ≤ maxTokens ∧ count + 1 ≤ maxChunks then
      c :: acceptChunks maxTokens maxChunks rest (total + (c.tokens : Int)) (count + 1)
    else
      acceptChunks maxTokens maxChunks rest total count

/-- Modelled from the spec: the Retrieval Assembler (§4.4).  Accepted chunks
are concatenated in original order with the configured separator; when zero
chunks are accepted the result's content is absent — a valid, non-error
outcome (the assembler is a total function into `RAGQueryResult`). -/
def assembleRetrieval (cfg : RAGQueryConfig) (chunks : List ScoredChunk) :
    RAGQueryResult :=
  let sep := match cfg.query_generator_config with
    | .defaultConfig s => s
    | .llmConfig _ _ => " "
  let accepted := acceptChunks cfg.max_tokens_in_context cfg.max_chunks chunks 0 0
  match accepted with
  | [] => { content := none }
  | cs => { content := some ⟨String.intercalate sep (cs.map (·.content))⟩ }

/-! ## Streaming Tool-Call Parser (modelled from the spec)

`convert_chat_completion_response_stream` (groq_utils) has only its caller
among the sources, so the parser is modelled from spec §4.2: a stateful
incremental parser over raw text deltas, with an accumulation buffer, a
parse mode (`scanning` / `inside-candidate`), and a configured tool-prompt
format (`json` / `python_list`) fixing the candidate start/end tokens.
Text is modelled as `List Char` so that the stream induction is direct. -/

/-- The tool-prompt format selecting the candidate-marker grammar (§6). -/
inductive ToolPromptFormatKind where
  | json
  | python_list
deriving Repr, DecidableEq

/-- The candidate-start token of the configured format. -/
def startChar : ToolPromptFormatKind → Char
  | .json => '\x7b'
  | .python_list => '['

/-- The candidate-end token of the configured format. -/
def endChar : ToolPromptFormatKind → Char
  | .json => '\x7d'
  | .python_list => ']'

/-- Classified stream events: plain text, or a tool-call candidate whose
structural parse succeeded or failed; every event carries the raw span of
source text it accounts for. -/
inductive StreamEvent where
  | text (s : List Char)
  | toolCallSucceeded (raw : List Char)
  | toolCallFailed (raw : List Char)
deriving Repr, DecidableEq

/-- The raw source span an event accounts for. -/
def StreamEvent.raw : StreamEvent → List Char
  | .text s => s
  | .toolCallSucceeded r => r
  | .toolCallFailed r => r

/-- Concatenation of the raw spans of a sequence of events, in emission
order. -/
def concatRaw (evs : List StreamEvent) : List Char :=
  (evs.map StreamEvent.raw).flatten

/-- Parser mode: `scanning`, or inside a tool-call candidate with the
accumulated buffer (from the start marker onward) and the current marker
nesting depth. -/
inductive ParseMode where
  | scanning
  | insideCandidate (buffer : List Char) (depth : Nat)
deriving Repr, DecidableEq

/-- The not-yet-classified text the parser state still holds. -/
def ParseMode.pending : ParseMode → List Char
  | .scanning => []
  | .insideCandidate buffer _ => buffer

/-- One character step.  `run` is the pending plain-text span of the current
delta (emitted when a marker starts or the delta ends).  In `scanning`, a
start marker flushes the text run and opens a candidate; inside a candidate
the buffer accumulates until the markers balance (emit succeeded/failed per
the structural parse `parseOk`), with a hard buffer-size bound `maxBuf`
flushing an oversized candidate as failed. -/
def stepChar (fmt : ToolPromptFormatKind) (parseOk : List Char → Bool)
    (maxBuf : Nat) (mode : ParseMode) (run : List Char) (c : Char) :
    List StreamEvent × ParseMode × List Char :=
  match mode with
  | .scanning =>
    if c = startChar fmt then
      ((if run = [] then [] else [.text run]), .insideCandidate [c] 1, [])
    else
      ([], .scanning, run ++ [c])
  | .insideCandidate buf depth =>
    let nbuf := buf ++ [c]
    if c = endChar fmt ∧ depth ≤ 1 then
      ((if parseOk nbuf then [.toolCallSucceeded nbuf] else [.toolCallFailed nbuf]),
        .scanning, run)
    else if c = endChar fmt then
      ([], .insideCandidate nbuf (depth - 1), run)
    else if c = startChar fmt then
      ([], .insideCandidate nbuf (depth + 1), run)
    else if maxBuf < nbuf.length then
      ([.toolCallFailed nbuf], .scanning, run)
    else
      ([], .insideCandidate nbuf depth, run)

/-- Consume the characters of one delta, threading mode and text run. -/
def consumeChars (fmt : ToolPromptFormatKind) (parseOk : List Char → Bool)
    (maxBuf : Nat) : ParseMode → List Char → List Char →
    List StreamEvent × ParseMode × List Char
  | mode, run, [] => ([], mode, run)
  | mode, run, c :: cs =>
    let s := stepChar fmt parseOk maxBuf mode run c
    let rest := consumeChars fmt parseOk maxBuf s.2.1 s.2.2 cs
    (s.1 ++ rest.1, rest.2.1, rest.2.2)

/-- Process one incoming delta: scan its characters, then emit the pending
text run of this delta (text before a marker is emitted immediately, never
held back beyond marker detection). -/
def processDelta (fmt : ToolPromptFormatKind) (parseOk : List Char → Bool)
    (maxBuf : Nat) (mode : ParseMode) (delta : List Char) :
    List StreamEvent × ParseMode :=
  let r := consumeChars fmt parseOk maxBuf mode [] delta
  (r.1 ++ (if r.2.2 = [] then [] else [.text r.2.2]), r.2.1)

/-- Process the whole delta sequence, accumulating events in source order. -/
def processDeltas (fmt : ToolPromptFormatKind) (parseOk : List Char → Bool)
    (maxBuf : Nat) : ParseMode → List (List Char) →
    List StreamEvent × ParseMode
  | mode, [] => ([], mode)
  | mode, d :: ds =>
    let r := processDelta fmt parseOk maxBuf mode d
    let rest := processDeltas fmt parseOk maxBuf r.2 ds
    (r.1 ++ rest.1, rest.2)

/-- Modelled from the spec: the Streaming Tool-Call Parser (§4.2), whose
implementation (`groq_utils.convert_chat_completion_response_stream`) is not
among the sources.  When no tools were offered it short-circuits to plain
text events; otherwise it runs the incremental scanner and, at end of
stream, flushes an unterminated candidate as a single failed tool-call
event carrying the accumulated buffer. -/
def runToolCallParser (fmt : ToolPromptFormatKind)
    (parseOk : List Char → Bool) (maxBuf : Nat) (toolsOffered : Bool)
    (deltas : List (List Char)) : List StreamEvent :=
  if toolsOffered then
    let r := processDeltas fmt parseOk maxBuf .scanning deltas
    r.1 ++ (match r.2 with
      | .scanning => []
      | .insideCandidate buf _ => [.toolCallFailed buf])
  else
    deltas.filterMap (fun d => if d = [] then none else some (.text d))

/-- Invariant: inside a candidate the delta-local text run is empty (it was
flushed when the candidate opened). -/
def RunOk : ParseMode → List Char → Prop
  | .scanning, _ => True
  | .insideCandidate _ _, run => run = []

/-! ## Lossless-accounting development -/

lemma concatRaw_nil : concatRaw [] = [] := rfl

lemma concatRaw_append (a b : List StreamEvent) :
    concatRaw (a ++ b) = concatRaw a ++ concatRaw b := by
  simp [concatRaw]

lemma runOk_nil (mode : ParseMode) : RunOk mode [] := by
  cases mode <;> simp [RunOk]

/-- One-character accounting: the raw spans of the events a step emits,
followed by the step's pending text run and candidate buffer, account for
exactly the pending text before the step plus the consumed character; and
the run invariant is preserved. -/
lemma stepChar_accounting (fmt : ToolPromptFormatKind)
    (parseOk : List Char → Bool) (maxBuf : Nat) (mode : ParseMode)
    (run : List Char) (c : Char) (h : RunOk mode run) :
    concatRaw (stepChar fmt parseOk maxBuf mode run c).1
        ++ (stepChar fmt parseOk maxBuf mode run c).2.2
        ++ (stepChar fmt parseOk maxBuf mode run c).2.1.pending
      = run ++ mode.pending ++ [c]
    ∧ RunOk (stepChar fmt parseOk maxBuf mode run c).2.1
        (stepChar fmt parseOk maxBuf mode run c).2.2 := by
  cases mode with
  | scanning =>
    by_cases hc : c = startChar fmt
    · by_cases hr : run = [] <;>
        simp [stepChar, hc, hr, concatRaw, StreamEvent.raw, ParseMode.pending, RunOk]
    · simp [stepChar, hc, concatRaw, ParseMode.pending, RunOk]
  | insideCandidate buf depth =>
    have hr : run = [] := h
    subst hr
    by_cases h2 : c = endChar fmt
    · subst h2
      by_cases hd : depth ≤ 1
      · by_cases hp : parseOk (buf ++ [endChar fmt]) <;>
          simp [stepChar, hd, hp, concatRaw, StreamEvent.raw, ParseMode.pending, RunOk]
      · simp [stepChar, hd, concatRaw, ParseMode.pending, RunOk]
    · by_cases h3 : c = startChar fmt
      · subst h3
        simp [stepChar, h2, concatRaw, ParseMode.pending, RunOk]
      · by_cases h4 : maxBuf < buf.length + 1
        · simp [stepChar, h2, h3, h4, concatRaw, StreamEvent.raw,
            ParseMode.pending, RunOk]
        · simp [stepChar, h2, h3, h4, concatRaw, ParseMode.pending, RunOk]

/-- Delta-scan accounting: consuming a character list preserves the
accounting identity and the run invariant. -/
lemma consumeChars_accounting (fmt : ToolPromptFormatKind)
    (parseOk : List Char → Bool) (maxBuf : Nat) (cs : List Char) :
    ∀ (mode : ParseMode) (run : List Char), RunOk mode run →
    concatRaw (consumeChars fmt parseOk maxBuf mode run cs).1
        ++ (consumeChars fmt parseOk maxBuf mode run cs).2.2
        ++ (consumeChars fmt parseOk maxBuf mode run cs).2.1.pending
      = run ++ mode.pending ++ cs
    ∧ RunOk (consumeChars fmt parseOk maxBuf mode run cs).2.1
        (consumeChars fmt parseOk maxBuf mode run cs).2.2 := by
  induction cs with
  | nil =>
    intro mode run h
    refine ⟨by simp [consumeChars, concatRaw], by simpa [consumeChars] using h⟩
  | cons c cs ih =>
    intro mode run h
    obtain ⟨hacc, hok⟩ := stepChar_accounting fmt parseOk maxBuf mode run c h
    obtain ⟨hacc2, hok2⟩ :=
      ih (stepChar fmt parseOk maxBuf mode run c).2.1
        (stepChar fmt parseOk maxBuf mode run c).2.2 hok
    refine ⟨?_, by simpa [consumeChars] using hok2⟩
    show concatRaw ((stepChar fmt parseOk maxBuf mode run c).1
          ++ (consumeChars fmt parseOk maxBuf
                (stepChar fmt parseOk maxBuf mode run c).2.1
                (stepChar fmt parseOk maxBuf mode run c).2.2 cs).1)
        ++ (consumeChars fmt parseOk maxBuf
              (stepChar fmt parseOk maxBuf mode run c).2.1
              (stepChar fmt parseOk maxBuf mode run c).2.2 cs).2.2
        ++ (consumeChars fmt parseOk maxBuf
              (stepChar fmt parseOk maxBuf mode run c).2.1
              (stepChar fmt parseOk maxBuf mode run c).2.2 cs).2.1.pending
      = run ++ mode.pending ++ (c :: cs)
    calc concatRaw ((stepChar fmt parseOk maxBuf mode run c).1
            ++ (consumeChars fmt parseOk maxBuf
                  (stepChar fmt parseOk maxBuf mode run c).2.1
                  (stepChar fmt parseOk maxBuf mode run c).2.2 cs).1)
          ++ (consumeChars fmt parseOk maxBuf
                (stepChar fmt parseOk maxBuf mode run c).2.1
                (stepChar fmt parseOk maxBuf mode run c).2.2 cs).2.2
          ++ (consumeChars fmt parseOk maxBuf
                (stepChar fmt parseOk maxBuf mode run c).2.1
                (stepChar fmt parseOk maxBuf mode run c).2.2 cs).2.1.pending
        = concatRaw (stepChar fmt parseOk maxBuf mode run c).1
            ++ (concatRaw (consumeChars fmt parseOk maxBuf
                  (stepChar fmt parseOk maxBuf mode run c).2.1
                  (stepChar fmt parseOk maxBuf mode run c).2.2 cs).1
                ++ (consumeChars fmt parseOk maxBuf
                      (stepChar fmt parseOk maxBuf mode run c).2.1
                      (stepChar fmt parseOk maxBuf mode run c).2.2 cs).2.2
                ++ (consumeChars fmt parseOk maxBuf
                      (stepChar fmt parseOk maxBuf mode run c).2.1
                      (stepChar fmt parseOk maxBuf mode run c).2.2 cs).2.1.pending) := by
          simp [concatRaw_append, List.append_assoc]
      _ = concatRaw (stepChar fmt parseOk maxBuf mode run c).1
            ++ ((stepChar fmt parseOk maxBuf mode run c).2.2
                ++ (stepChar fmt parseOk maxBuf mode run c).2.1.pending ++ cs) := by
          rw [hacc2]
      _ = concatRaw (stepChar fmt parseOk maxBuf mode run c).1
            ++ (stepChar fmt parseOk maxBuf mode run c).2.2
            ++ (stepChar fmt parseOk maxBuf mode run c).2.1.pending ++ cs := by
          simp [List.append_assoc]
      _ = run ++ mode.pending ++ [c] ++ cs := by rw [hacc]
      _ = run ++ mode.pending ++ (c :: cs) := by simp [List.append_assoc]

/-- Per-delta accounting: the raw spans of the events a delta produces plus
the still-pending candidate buffer equal the pending buffer before the
delta plus the delta itself. -/
lemma processDelta_accounting (fmt : ToolPromptFormatKind)
    (parseOk : List Char → Bool) (maxBuf : Nat) (mode : ParseMode)
    (delta : List Char) :
    concatRaw (processDelta fmt parseOk maxBuf mode delta).1
        ++ (processDelta fmt parseOk maxBuf mode delta).2.pending
      = mode.pending ++ delta := by
  obtain ⟨hacc, -⟩ :=
    consumeChars_accounting fmt parseOk maxBuf delta mode [] (runOk_nil mode)
  by_cases hr : (consumeChars fmt parseOk maxBuf mode [] delta).2.2 = []
  · simpa [processDelta, hr, concatRaw_append, concatRaw,
      List.append_assoc] using hacc
  · simp only [processDelta, hr, if_neg hr, concatRaw_append, concatRaw,
      StreamEvent.raw, List.map_cons, List.map_nil, List.flatten_cons,
      List.flatten_nil, List.append_nil, List.append_assoc] at *
    simpa [List.append_assoc] using hacc

/-- Whole-stream accounting. -/
lemma processDeltas_accounting (fmt : ToolPromptFormatKind)
    (parseOk : List Char → Bool) (maxBuf : Nat) (ds : List (List Char)) :
    ∀ mode : ParseMode,
    concatRaw (processDeltas fmt parseOk maxBuf mode ds).1
        ++ (processDeltas fmt parseOk maxBuf mode ds).2.pending
      = mode.pending ++ ds.flatten := by
  induction ds with
  | nil => intro mode; simp [processDeltas, concatRaw]
  | cons d ds ih =>
    intro mode
    have h1 := processDelta_accounting fmt parseOk maxBuf mode d
    have h2 := ih (processDelta fmt parseOk maxBuf mode d).2
    simp only [processDeltas, concatRaw_append, List.flatten_cons,
      List.append_assoc] at *
    rw [h2, ← List.append_assoc, h1]
    simp [List.append_assoc]

/-- No-tools short-circuit accounting: plain text events reproduce the
stream. -/
lemma concatRaw_filterMap_text (ds : List (List Char)) :
    concatRaw (ds.filterMap
      (fun d => if d = [] then none else some (.text d))) = ds.flatten := by
  induction ds with
  | nil => simp [concatRaw]
  | cons d ds ih =>
    by_cases hd : d = []
    · simpa [List.filterMap_cons, hd] using ih
    · simp only [List.filterMap_cons, hd, if_neg hd, concatRaw,
        List.map_cons, List.flatten_cons, StreamEvent.raw, List.flatten]
      simp only [concatRaw] at ih
      rw [ih]

/-! ## Claim theorems -/

/-- C1: For every backend text stream and every way of splitting it into
delta boundaries, the Streaming Tool-Call Parser emits chunks in source
order with no two chunks accounting for overlapping text: concatenating, in
emission order, all emitted text deltas plus the raw spans of all tool-call
events (succeeded or failed) reconstructs the original backend output
(`deltas.flatten`) exactly — the lossless accounting invariant.  The
identity holds for every tool-prompt format, every structural parse
outcome, every candidate-size bound, and whether or not tools were
offered. -/
theorem streaming_tool_call_parser_lossless (fmt : ToolPromptFormatKind)
    (parseOk : List Char → Bool) (maxBuf : Nat) (toolsOffered : Bool)
    (deltas : List (List Char)) :
    concatRaw (runToolCallParser fmt parseOk maxBuf toolsOffered deltas)
      = deltas.flatten := by
  cases toolsOffered with
  | false => simpa [runToolCallParser] using concatRaw_filterMap_text deltas
  | true =>
    have h := processDeltas_accounting fmt parseOk maxBuf deltas ParseMode.scanning
    cases hmode : (processDeltas fmt parseOk maxBuf ParseMode.scanning deltas).2 with
    | scanning =>
      rw [hmode] at h
      simpa [runToolCallParser, hmode, concatRaw_append, concatRaw,
        ParseMode.pending] using h
    | insideCandidate buf depth =>
      rw [hmode] at h
      simp only [ParseMode.pending, List.nil_append] at h
      simp only [runToolCallParser, if_pos, hmode, concatRaw_append]
      simpa [concatRaw, StreamEvent.raw] using h

/-- C2: when the backend raises a `BadRequestError` whose error code is
`tool_use_failed`, `chat_completion` raises the distinct
`toolInvocationFailed` error carrying the backend diagnostic payload
(`e.body.get("error", {})`); every other backend error propagates to the
caller unchanged as `upstream`. -/
theorem chat_completion_error_translation
    (adapter : GroqInferenceAdapter) (providerData : Option GroqProviderData)
    (create : Groq → ChatCompletionRequest → Except GroqException BackendResponse)
    (model_id : String) (messages : List Message)
    (sampling_params : SamplingParams) (response_format : Option ResponseFormat)
    (tools : Option (List ToolDefinition)) (tool_choice : Option ToolChoice)
    (tool_prompt_format : Option ToolPromptFormat) (stream : Bool)
    (logprobs : Option LogProbConfig) (tool_config : Option ToolConfig)
    (client : Groq)
    (hclient : getClient adapter.config providerData = .ok client) :
    (∀ body : Option GroqErrorInfo,
      create client (buildChatRequest (adapter.get_provider_model_id model_id)
          messages sampling_params response_format tools stream logprobs
          tool_config) = .error (.badRequest body) →
      bodyErrorCode body = some "tool_use_failed" →
      chat_completion adapter providerData create model_id messages
          sampling_params response_format tools tool_choice tool_prompt_format
          stream logprobs tool_config
        = .error (.toolInvocationFailed body))
    ∧ (∀ e : GroqException,
      create client (buildChatRequest (adapter.get_provider_model_id model_id)
          messages sampling_params response_format tools stream logprobs
          tool_config) = .error e →
      (∀ body, e = .badRequest body → bodyErrorCode body ≠ some "tool_use_failed") →
      chat_completion adapter providerData create model_id messages
          sampling_params response_format tools tool_choice tool_prompt_format
          stream logprobs tool_config
        = .error (.upstream e)) := by
  constructor
  · intro body hcreate hcode
    simp [chat_completion, hclient, hcreate, hcode]
  · intro e hcreate hne
    cases e with
    | badRequest body =>
      have hb : bodyErrorCode body ≠ some "tool_use_failed" := hne body rfl
      simp [chat_completion, hclient, hcreate, hb]
    | other n m =>
      simp [chat_completion, hclient, hcreate]

/-- C2 witness: a `tool_use_failed` bad request becomes
`toolInvocationFailed` with the diagnostic payload; a bad request with a
different code and a connection error both propagate unchanged. -/
theorem chat_completion_error_translation_witness :
    chat_completion ⟨⟨some "k"⟩, fun s => s⟩ none
        (fun _ _ => .error (.badRequest (some ⟨some "tool_use_failed", "diag"⟩)))
        "m" [] ⟨""⟩ none none none none false none none
      = .error (.toolInvocationFailed (some ⟨some "tool_use_failed", "diag"⟩))
    ∧ chat_completion ⟨⟨some "k"⟩, fun s => s⟩ none
        (fun _ _ => .error (.badRequest (some ⟨some "other_code", "diag"⟩)))
        "m" [] ⟨""⟩ none none none none false none none
      = .error (.upstream (.badRequest (some ⟨some "other_code", "diag"⟩)))
    ∧ chat_completion ⟨⟨some "k"⟩, fun s => s⟩ none
        (fun _ _ => .error (.other "APIConnectionError" "boom"))
        "m" [] ⟨""⟩ none none none none false none none
      = .error (.upstream (.other "APIConnectionError" "boom")) :=
  ⟨(chat_completion_error_translation ⟨⟨some "k"⟩, fun s => s⟩ none
      (fun _ _ => .error (.badRequest (some ⟨some "tool_use_failed", "diag"⟩)))
      "m" [] ⟨""⟩ none none none none false none none ⟨"k"⟩ rfl).1
      (some ⟨some "tool_use_failed", "diag"⟩) rfl rfl,
   (chat_completion_error_translation ⟨⟨some "k"⟩, fun s => s⟩ none
      (fun _ _ => .error (.badRequest (some ⟨some "other_code", "diag"⟩)))
      "m" [] ⟨""⟩ none none none none false none none ⟨"k"⟩ rfl).2
      (.badRequest (some ⟨some "other_code", "diag"⟩)) rfl
      (fun body hb => by cases hb; simp [bodyErrorCode]),
   (chat_completion_error_translation ⟨⟨some "k"⟩, fun s => s⟩ none
      (fun _ _ => .error (.other "APIConnectionError" "boom"))
      "m" [] ⟨""⟩ none none none none false none none ⟨"k"⟩ rfl).2
      (.other "APIConnectionError" "boom") rfl (fun body hb => nomatch hb)⟩

/-- C3: `completion` and `embeddings` fail deterministically, for every
input, with `NotImplementedError` (the spec taxonomy's
`UnsupportedOperation`): Groq lacks non-chat completion and embeddings,
and the adapter rejects rather than silently degrading. -/
theorem completion_embeddings_unsupported
    (adapter : GroqInferenceAdapter) (model_id : String) (content : String)
    (sampling_params : SamplingParams) (response_format : Option ResponseFormat)
    (stream : Bool) (logprobs : Option LogProbConfig)
    (contents : List String) (text_truncation : Option String)
    (output_dimension : Option Nat) (task_type : Option String) :
    completion adapter model_id content sampling_params response_format
        stream logprobs = .error .notImplemented
    ∧ embeddings adapter model_id contents text_truncation output_dimension
        task_type = .error .notImplemented :=
  ⟨rfl, rfl⟩

/-- C4: `_get_client` fails with the actionable `MissingCredential` message
exactly when neither the static config nor the per-request provider data
supplies a (truthy) API key; when either source supplies one, a client is
returned without error. -/
theorem get_client_credential_sources (config : GroqConfig)
    (providerData : Option GroqProviderData) :
    ((config.api_key = none ∧
        (providerData = none ∨
          ∃ pd, providerData = some pd ∧ pd.groq_api_key = "")) →
      getClient config providerData
        = .error (.missingCredential missingGroqKeyMessage))
    ∧ (∀ k, config.api_key = some k →
        getClient config providerData = .ok ⟨k⟩)
    ∧ (∀ pd, config.api_key = none → providerData = some pd →
        pd.groq_api_key ≠ "" →
        getClient config providerData = .ok ⟨pd.groq_api_key⟩) := by
  refine ⟨?_, ?_, ?_⟩
  · rintro ⟨hk, hpd | ⟨pd, hpd, hkey⟩⟩
    · simp [getClient, hk, hpd]
    · subst hpd; simp [getClient, hk, hkey]
  · intro k hk; simp [getClient, hk]
  · intro pd hk hpd hkey
    subst hpd; simp [getClient, hk, hkey]

/-- C4 witness: no key anywhere yields `MissingCredential` with the
actionable message; a static key or a per-request key each yield a
client. -/
theorem get_client_credential_sources_witness :
    getClient ⟨none⟩ none = .error (.missingCredential missingGroqKeyMessage)
    ∧ getClient ⟨some "static-key"⟩ none = .ok ⟨"static-key"⟩
    ∧ getClient ⟨none⟩ (some ⟨"header-key"⟩) = .ok ⟨"header-key"⟩ :=
  ⟨(get_client_credential_sources ⟨none⟩ none).1 ⟨rfl, Or.inl rfl⟩,
   (get_client_credential_sources ⟨some "static-key"⟩ none).2.1 "static-key" rfl,
   (get_client_credential_sources ⟨none⟩ (some ⟨"header-key"⟩)).2.2
     ⟨"header-key"⟩ rfl rfl (by decide)⟩

/-- C7: when the resolved provider-local model id is the known-limitation
id `llama-3.2-3b-preview`, `chat_completion` emits the non-fatal advisory
warning and still proceeds to the backend, returning its response; with any
other resolved id no warning is emitted and the response is the same — the
warning never changes the outcome. -/
theorem chat_completion_preview_warning
    (adapter : GroqInferenceAdapter) (providerData : Option GroqProviderData)
    (create : Groq → ChatCompletionRequest → Except GroqException BackendResponse)
    (model_id : String) (messages : List Message)
    (sampling_params : SamplingParams) (response_format : Option ResponseFormat)
    (tools : Option (List ToolDefinition)) (tool_choice : Option ToolChoice)
    (tool_prompt_format : Option ToolPromptFormat) (stream : Bool)
    (logprobs : Option LogProbConfig) (tool_config : Option ToolConfig)
    (client : Groq) (resp : BackendResponse)
    (hclient : getClient adapter.config providerData = .ok client)
    (hcreate : create client (buildChatRequest
        (adapter.get_provider_model_id model_id) messages sampling_params
        response_format tools stream logprobs tool_config) = .ok resp) :
    chat_completion adapter providerData create model_id messages
        sampling_params response_format tools tool_choice tool_prompt_format
        stream logprobs tool_config
      = .ok ((if adapter.get_provider_model_id model_id = "llama-3.2-3b-preview"
              then [groqPreviewWarning] else []), resp) := by
  simp [chat_completion, hclient, hcreate]

/-- C7 witness: with a registry resolving to `llama-3.2-3b-preview` and a
succeeding backend, the call returns the advisory warning together with the
backend response. -/
theorem chat_completion_preview_warning_witness :
    chat_completion ⟨⟨some "k"⟩, fun _ => "llama-3.2-3b-preview"⟩ none
        (fun _ _ => .ok ⟨"resp"⟩) "logical-model" [] ⟨""⟩ none none none none
        false none none
      = .ok ([groqPreviewWarning], ⟨"resp"⟩) := by
  have h := chat_completion_preview_warning
    ⟨⟨some "k"⟩, fun _ => "llama-3.2-3b-preview"⟩ none
    (fun _ _ => .ok ⟨"resp"⟩) "logical-model" [] ⟨""⟩ none none none none
    false none none ⟨"k"⟩ ⟨"resp"⟩ rfl rfl
  simpa using h

/-- C9: whenever the static configuration's `api_key` is set, `_get_client`
builds the client from that key and never consults the per-request provider
data: two calls differing only in the per-request credential produce the
same client. -/
theorem get_client_static_key_noninterference (config : GroqConfig)
    (pd1 pd2 : Option GroqProviderData) (k : String)
    (h : config.api_key = some k) :
    getClient config pd1 = getClient config pd2
    ∧ getClient config pd1 = .ok ⟨k⟩ := by
  simp [getClient, h]

/-- C9 witness: with a static key, a missing and a different per-request
credential yield the identical client built from the static key. -/
theorem get_client_static_key_noninterference_witness :
    getClient ⟨some "sk"⟩ none = getClient ⟨some "sk"⟩ (some ⟨"other"⟩)
    ∧ getClient ⟨some "sk"⟩ none = .ok ⟨"sk"⟩ :=
  get_client_static_key_noninterference ⟨some "sk"⟩ none (some ⟨"other"⟩) "sk" rfl

/-- C10: `tool_choice` and `tool_prompt_format` are not forwarded into the
`ChatCompletionRequest` sent to the backend (only `tool_config` is): two
calls differing only in those two arguments are indistinguishable — they
build the identical request and produce the identical result for every
backend. -/
theorem chat_completion_tool_choice_not_forwarded
    (adapter : GroqInferenceAdapter) (providerData : Option GroqProviderData)
    (create : Groq → ChatCompletionRequest → Except GroqException BackendResponse)
    (model_id : String) (messages : List Message)
    (sampling_params : SamplingParams) (response_format : Option ResponseFormat)
    (tools : Option (List ToolDefinition)) (stream : Bool)
    (logprobs : Option LogProbConfig) (tool_config : Option ToolConfig)
    (tc1 tc2 : Option ToolChoice) (tpf1 tpf2 : Option ToolPromptFormat) :
    chat_completion adapter providerData create model_id messages
        sampling_params response_format tools tc1 tpf1 stream logprobs
        tool_config
      = chat_completion adapter providerData create model_id messages
          sampling_params response_format tools tc2 tpf2 stream logprobs
          tool_config := rfl

/-- C5 counterexample: pydantic construction of a `RAGQueryConfig` with
`max_chunks = 0` succeeds — it does not fail with `InvalidConfig` (the
fields are plain unconstrained `int` fields). -/
theorem ragQueryConfig_nonpositive_accepted :
    validateRAGQueryConfig (RAGQueryGeneratorConfig.defaultConfig " ") 4096 0
      = Except.ok { query_generator_config := RAGQueryGeneratorConfig.defaultConfig " "
                    max_tokens_in_context := 4096
                    max_chunks := 0 } := rfl

/-- C5 (amended): constructing a `RAGQueryConfig` performs no positivity
validation — every pair of integers is accepted for `max_tokens_in_context`
and `max_chunks`, at configuration time and with no error; only the declared
defaults (4096 and 5) are positive. -/
theorem ragQueryConfig_no_positivity_validation :
    (∀ (qgc : RAGQueryGeneratorConfig) (mtic mc : Int),
        validateRAGQueryConfig qgc mtic mc
          = Except.ok { query_generator_config := qgc
                        max_tokens_in_context := mtic
                        max_chunks := mc })
    ∧ 0 < ({} : RAGQueryConfig).max_tokens_in_context
    ∧ 0 < ({} : RAGQueryConfig).max_chunks :=
  ⟨fun qgc mtic mc => rfl, by decide, by decide⟩

/-- C6 counterexample: a value tagged `custom` — even with every payload
field supplied — is rejected by the `RAGQueryGeneratorConfig` discriminated
union, which admits only `default` and `llm`; `custom` exists only in the
separate `RAGQueryGenerator` enum. -/
theorem rag_query_generator_custom_rejected :
    validateQueryGeneratorConfig
        { type := "custom", separator := some " "
          model := some "m", template := some "t" } = none := rfl

/-- C6 (amended): `query_generator_config` is a closed tagged variant
admitting exactly the alternatives `default` (carrying a separator string)
and `llm` (carrying a model id and prompt template); any value whose tag is
outside `{default, llm}` is rejected at construction. -/
theorem rag_query_generator_config_closed (input : QGCInput) :
    ((validateQueryGeneratorConfig input).isSome = true →
      input.type = "default" ∨ input.type = "llm")
    ∧ (input.type = "default" →
        validateQueryGeneratorConfig input
          = some (.defaultConfig (input.separator.getD " ")))
    ∧ (∀ m t, input.type = "llm" → input.model = some m →
        input.template = some t →
        validateQueryGeneratorConfig input = some (.llmConfig m t))
    ∧ (input.type ≠ "default" → input.type ≠ "llm" →
        validateQueryGeneratorConfig input = none) := by
  by_cases h1 : input.type = "default"
  · refine ⟨fun _ => Or.inl h1, fun _ => by simp [validateQueryGeneratorConfig, h1],
      fun m t h2 => absurd (h1 ▸ h2) (by decide), fun hc => absurd h1 hc⟩
  · by_cases h2 : input.type = "llm"
    · refine ⟨fun _ => Or.inr h2, fun hc => absurd hc h1, ?_, fun _ hc => absurd h2 hc⟩
      intro m t _ hm ht
      simp [validateQueryGeneratorConfig, h1, h2, hm, ht]
    · refine ⟨?_, fun hc => absurd hc h1, fun m t hc => absurd hc h2, ?_⟩
      · intro hsome
        exfalso
        simp [validateQueryGeneratorConfig, h1, h2] at hsome
      · intro _ _
        simp [validateQueryGeneratorConfig, h1, h2]

/-- C6 amended-claim witness: an `llm`-tagged input with its required
fields validates to the `llm` alternative; an unknown tag is rejected. -/
theorem rag_query_generator_config_closed_witness :
    validateQueryGeneratorConfig
        { type := "llm", separator := none
          model := some "model-x", template := some "tmpl" }
      = some (.llmConfig "model-x" "tmpl")
    ∧ validateQueryGeneratorConfig
        { type := "weird", separator := none, model := none, template := none }
      = none :=
  ⟨(rag_query_generator_config_closed
      { type := "llm", separator := none
        model := some "model-x", template := some "tmpl" }).2.2.1
      "model-x" "tmpl" rfl rfl rfl,
   (rag_query_generator_config_closed
      { type := "weird", separator := none, model := none
        template := none }).2.2.2 (by decide) (by decide)⟩

/-- C8: a `RAGQueryResult` may carry no assembled content — its `content`
field is optional and absent by default — and a query accepting zero chunks
yields exactly that empty result, as a valid outcome of the total (never
failing) assembler. -/
theorem rag_query_result_empty_ok :
    defaultRAGQueryResult.content = none
    ∧ (∀ (cfg : RAGQueryConfig) (chunks : List ScoredChunk),
        acceptChunks cfg.max_tokens_in_context cfg.max_chunks chunks 0 0 = [] →
        assembleRetrieval cfg chunks = defaultRAGQueryResult) :=
  ⟨rfl, fun cfg chunks h => by
    simp [assembleRetrieval, h, defaultRAGQueryResult]⟩

/-- C8 witness: with `max_chunks := 0` no chunk is accepted and the query
result is the empty (content-absent) result, without error. -/
theorem rag_query_result_empty_ok_witness :
    acceptChunks (4096 : Int) 0 [⟨"chunk", 3⟩] 0 0 = []
    ∧ assembleRetrieval { max_chunks := 0 } [⟨"chunk", 3⟩]
        = defaultRAGQueryResult :=
  ⟨by decide,
   rag_query_result_empty_ok.2 { max_chunks := 0 } [⟨"chunk", 3⟩] (by decide)⟩

end LlamaStack
